import Mathlib

/-!
Shallow embedding of the CAPI call-control plugin (src/plugins/capi/capi.c).

Conventions of the embedding:
* C strings are `List Nat` of their bytes (no NUL byte inside; the NUL
  terminator is implicit).  Raw wire buffers are also `List Nat`.
* The fixed-capacity connection table `session->connection[CAPI_CONNECTIONS]`
  is a `List CapiConnection`; its length is the capacity N (the numeric value
  of `CAPI_CONNECTIONS` lives in the missing header capi.h and none of the
  claims depends on it).
* Function pointers (`init_data`, `data`, `clean`) are modelled as
  `Option Hook` tags naming the capability routine bound by
  `capi_connection_set_type`; the private capability data `priv` is modelled
  by a presence flag.
* Wire requests, raised notifications, capability cleanup invocations and
  allocator results are recorded as `Event`s in the order the C code performs
  them, so temporal claims become statements about event lists.
* The global `session` pointer is a `Bool` (`sessionPresent`) where only its
  NULL-ness matters; `session->appl_id` and the dispatch loop's state are in
  `LoopState`.  The unique-id counter `id` (initial value 1024) is threaded
  explicitly as `fresh`/`nextId`.
* Results of synchronous wire primitives (DISCONNECT_REQ, CONNECT_REQ, ...)
  are oracle parameters, since the transport is external.
* `memset(connection, 0, sizeof ...)` produces `zeroConn`; `STATE_IDLE` and
  `SESSION_NONE` are the zero values of their enums (STATE_IDLE is the
  initial state and `capi_find_new` tests `type != 0` for `SESSION_NONE`).
-/

/-- Connection states of the call state machine (spec section 4.2; the
STATE_* constants used by capi.c). -/
inductive CState
  | idle
  | ringing
  | connectWait
  | connectActive
  | connectB3Wait
  | connected
  | disconnectB3Req
  | disconnectB3Wait
  | disconnectActive
  | incomingWait
deriving DecidableEq

/-- Call kinds (SESSION_NONE / SESSION_PHONE / SESSION_FAX). -/
inductive SessionType
  | none
  | phone
  | fax
deriving DecidableEq

/-- Tags naming the capability routines that `capi_connection_set_type`
binds into the function-pointer fields of a connection. -/
inductive Hook
  | phoneInitData
  | phoneData
  | faxInitData
  | faxData
  | faxClean
deriving DecidableEq

/-- The struct capi_connection record, with the fields capi.c uses. -/
structure CapiConnection where
  id : Nat
  plci : Nat
  ncci : Nat
  state : CState
  type : SessionType
  initData : Option Hook
  dataHandler : Option Hook
  clean : Option Hook
  earlyB3 : Nat
  source : List Nat
  target : List Nat
  priv : Bool
  reason : Nat
  reasonB3 : Nat
  connectTime : Nat
  audio : Bool
  ncpi : List Nat
  buffers : Nat
  useBuffers : Bool
deriving DecidableEq

/-- The all-zero connection record produced by
memset(connection, 0, sizeof(struct capi_connection)). -/
def zeroConn : CapiConnection :=
  ⟨0, 0, 0, CState.idle, SessionType.none, Option.none, Option.none,
   Option.none, 0, [], [], false, 0, 0, 0, false, [], 0, false⟩

/-- A slot is free iff PLCI and NCCI are both zero (the test
`capi_get_free_connection` performs). -/
def connFree (c : CapiConnection) : Bool :=
  c.plci == 0 && c.ncci == 0

/-- Wire messages sent through the transport.  Only the arguments the claims
observe are recorded (protocol/configuration blocks bc/llc/hlc and message
numbers are opaque to every claim). -/
inductive WireMsg
  | connectReq (controller cip : Nat) (calledParty callingParty : List Nat)
  | connectResp (plci reject : Nat)
  | alertReq (plci : Nat)
  | disconnectReq (plci : Nat)
  | disconnectB3Req (ncci : Nat)
  | disconnectResp (plci : Nat)
deriving DecidableEq

/-- Observable events, in program order: wire requests/responses, raised
notifications, capability cleanup, allocator results. -/
inductive Event
  | wire (m : WireMsg)
  | statusSig (info : Nat)
  | notifyDisconnect (slot : Nat)
  | ring (slot : Nat)
  | cleanupHook (slot : Nat)
  | warnNoClean (slot : Nat)
  | allocReturn (slot : Nat) (newId : Nat)
deriving DecidableEq

/-- capi_connection_set_type: stores the type, then binds the capability
record for known kinds; returns -1 (and binds nothing further) for an
unknown kind.  Mirrors the switch in capi.c lines 188-216. -/
def capi_connection_set_type (c : CapiConnection) (ty : SessionType) :
    Int × CapiConnection :=
  let c0 := { c with type := ty }
  match ty with
  | SessionType.phone =>
      (0, { c0 with initData := some Hook.phoneInitData,
                    dataHandler := some Hook.phoneData,
                    clean := Option.none,
                    earlyB3 := 1 })
  | SessionType.fax =>
      (0, { c0 with initData := some Hook.faxInitData,
                    dataHandler := some Hook.faxData,
                    clean := some Hook.faxClean,
                    earlyB3 := 0 })
  | SessionType.none => (-1, c0)

/-- Scan of the connection table performed by capi_get_free_connection:
first slot with plci == 0 and ncci == 0 gets the fresh id and STATE_IDLE;
returns the updated table and the slot index. -/
def capi_scan_free (fresh : Nat) : List CapiConnection →
    Option (List CapiConnection × Nat)
  | [] => Option.none
  | c :: rest =>
    if c.plci = 0 ∧ c.ncci = 0 then
      some ({ c with id := fresh, state := CState.idle } :: rest, 0)
    else
      (capi_scan_free fresh rest).map (fun pr => (c :: pr.1, pr.2 + 1))

/-- capi_get_free_connection (capi.c lines 222-239): NULL when no session is
active; otherwise the scan above.  On success also returns the incremented
unique-id counter (`id++`). -/
def capi_get_free_connection (sessionPresent : Bool)
    (pool : List CapiConnection) (fresh : Nat) :
    Option (List CapiConnection × Nat × Nat) :=
  if sessionPresent then
    (capi_scan_free fresh pool).map (fun pr => (pr.1, pr.2, fresh + 1))
  else
    Option.none

/-- capi_set_free (capi.c lines 246-260): run the bound cleanup hook if
private data is attached (warn when data but no hook), then zero the slot.
`slot` is the table index of the connection, used to tag the events. -/
def capi_set_free (slot : Nat) (c : CapiConnection) :
    List Event × CapiConnection :=
  (if c.priv then
     if c.clean.isSome then [Event.cleanupHook slot]
     else [Event.warnNoClean slot]
   else [], zeroConn)

/-- capi_find_plci (capi.c lines 614-625): index of the first slot whose
plci equals the argument. -/
def capi_find_plci (plci : Nat) : List CapiConnection → Option Nat
  | [] => Option.none
  | c :: rest =>
    if c.plci = plci then some 0
    else (capi_find_plci plci rest).map (fun i => i + 1)

/-- capi_find_new (capi.c lines 631-642): index of the first slot with
plci == 0 and type != SESSION_NONE. -/
def capi_find_new : List CapiConnection → Option Nat
  | [] => Option.none
  | c :: rest =>
    if c.plci = 0 ∧ c.type ≠ SessionType.none then some 0
    else (capi_find_new rest).map (fun i => i + 1)

/-- capi_find_ncci (capi.c lines 649-660). -/
def capi_find_ncci (ncci : Nat) : List CapiConnection → Option Nat
  | [] => Option.none
  | c :: rest =>
    if c.ncci = ncci then some 0
    else (capi_find_ncci ncci rest).map (fun i => i + 1)

/-- State threaded through pool operations: the connection table and the
global unique-id counter. -/
structure PoolState where
  pool : List CapiConnection
  nextId : Nat
deriving DecidableEq

/-- The CAPI_DISCONNECT indication handler (capi.c lines 1374-1418), the
terminal teardown of a connection.  Program order of its effects:
DISCONNECT_RESP on the wire; find the slot by plci (not found => ignore);
capture the reason; state := IDLE, ncci := 0, plci := 0; kind-specific
teardown (the phone branch joins the audio-input worker and closes the audio
device - external effects with no observable event here); raise the
disconnected notification; capi_set_free (cleanup hook, zero the slot). -/
def capi_disconnect_ind (s : PoolState) (plci reason : Nat) :
    PoolState × List Event :=
  let respEv := Event.wire (WireMsg.disconnectResp plci)
  match capi_find_plci plci s.pool with
  | Option.none => (s, [respEv])
  | some i =>
    let c := s.pool.getD i zeroConn
    let c1 := { c with reason := reason, state := CState.idle,
                       ncci := 0, plci := 0 }
    let fr := capi_set_free i c1
    (⟨s.pool.set i fr.2, s.nextId⟩,
     [respEv, Event.notifyDisconnect i] ++ fr.1)

/-- Pool operations for the allocate/release trace semantics: an allocation
(capi_get_free_connection, as performed on a live session) and a terminal
physical-disconnect indication. -/
inductive PoolOp
  | alloc
  | disconnectInd (plci reason : Nat)
deriving DecidableEq

/-- One pool operation.  An allocation that finds a slot emits
`allocReturn slot id`; a failed allocation changes nothing (the C function
returns NULL without touching the table). -/
def execOp (s : PoolState) : PoolOp → PoolState × List Event
  | PoolOp.alloc =>
    match capi_get_free_connection true s.pool s.nextId with
    | some (pool2, i, nid) => (⟨pool2, nid⟩, [Event.allocReturn i s.nextId])
    | Option.none => (s, [])
  | PoolOp.disconnectInd plci reason => capi_disconnect_ind s plci reason

/-- A sequence of pool operations, with the concatenated event trace. -/
def execOps (s : PoolState) : List PoolOp → PoolState × List Event
  | [] => (s, [])
  | op :: rest =>
    let r1 := execOp s op
    let r2 := execOps r1.1 rest
    (r2.1, r1.2 ++ r2.2)

-- Helper lemmas about the pool scan.

/-- The free-slot scan fails exactly on a table with no free slot. -/
lemma capi_scan_free_eq_none (fresh : Nat) :
    ∀ pool : List CapiConnection,
      (∀ c ∈ pool, connFree c = false) → capi_scan_free fresh pool = Option.none := by
  intro pool h
  induction pool with
  | nil => rfl
  | cons c rest ih =>
    have hc : connFree c = false := h c (List.mem_cons_self c rest)
    have hrest : ∀ x ∈ rest, connFree x = false := fun x hx => h x (List.mem_cons_of_mem c hx)
    simp only [capi_scan_free]
    rw [if_neg, ih hrest]
    · rfl
    · intro hfree
      simp only [connFree, Bool.and_eq_true, beq_iff_eq] at hc
      rcases hfree with ⟨h1, h2⟩
      rw [h1, h2] at hc
      simp at hc

/-- The free-slot scan preserves the length of the table. -/
lemma capi_scan_free_length (fresh : Nat) :
    ∀ (pool pool2 : List CapiConnection) (i : Nat),
      capi_scan_free fresh pool = some (pool2, i) → pool2.length = pool.length := by
  intro pool
  induction pool with
  | nil => intro pool2 i h; simp [capi_scan_free] at h
  | cons c rest ih =>
    intro pool2 i h
    simp only [capi_scan_free] at h
    by_cases hfree : c.plci = 0 ∧ c.ncci = 0
    · rw [if_pos hfree] at h
      cases h
      simp
    · rw [if_neg hfree] at h
      cases hscan : capi_scan_free fresh rest with
      | none => rw [hscan] at h; simp [Option.map] at h
      | some pr =>
        rw [hscan] at h
        simp only [Option.map, Option.some.injEq] at h
        cases h
        simp [ih pr.1 pr.2 hscan]

/-- Pool operations preserve the length (the capacity) of the table. -/
lemma execOp_length (s : PoolState) (op : PoolOp) :
    (execOp s op).1.pool.length = s.pool.length := by
  cases op with
  | alloc =>
    simp only [execOp, capi_get_free_connection, if_pos]
    cases hscan : capi_scan_free s.nextId s.pool with
    | none => simp [Option.map]
    | some pr =>
      simp only [Option.map]
      exact capi_scan_free_length s.nextId s.pool pr.1 pr.2 hscan
  | disconnectInd plci reason =>
    simp only [execOp, capi_disconnect_ind]
    cases hfind : capi_find_plci plci s.pool with
    | none => rfl
    | some i => simp

lemma execOps_length (s : PoolState) (ops : List PoolOp) :
    (execOps s ops).1.pool.length = s.pool.length := by
  induction ops generalizing s with
  | nil => rfl
  | cons op rest ih =>
    simp only [execOps]
    rw [ih (execOp s op).1, execOp_length]

/-- C2: for every sequence of allocate and release/teardown operations the
pool keeps its fixed capacity N and at most N slots are concurrently
non-free; an allocation attempted when every slot is occupied fails
(returns no connection), which in the C code returns NULL before any write
to the table. -/
theorem c2_pool_capacity :
    (∀ (s : PoolState) (ops : List PoolOp),
       (execOps s ops).1.pool.length = s.pool.length ∧
       ((execOps s ops).1.pool.countP (fun c => !connFree c)) ≤ s.pool.length) ∧
    (∀ (pool : List CapiConnection) (fresh : Nat),
       (∀ c ∈ pool, connFree c = false) →
       capi_get_free_connection true pool fresh = Option.none) := by
  constructor
  · intro s ops
    refine ⟨execOps_length s ops, ?_⟩
    calc ((execOps s ops).1.pool.countP (fun c => !connFree c))
        ≤ (execOps s ops).1.pool.length := List.countP_le_length _
      _ = s.pool.length := execOps_length s ops
  · intro pool fresh h
    simp only [capi_get_free_connection, if_pos]
    rw [capi_scan_free_eq_none fresh pool h]
    rfl

/-- A fully occupied two-slot table used to exercise the exhausted-pool
branch concretely. -/
def c2FullPool : List CapiConnection :=
  [{ zeroConn with plci := 7, state := CState.connected },
   { zeroConn with ncci := 9, state := CState.connectB3Wait }]

/-- C2 witness: on a concrete fully occupied table the allocator fails. -/
theorem c2_pool_capacity_witness :
    capi_get_free_connection true c2FullPool 2000 = Option.none :=
  c2_pool_capacity.2 c2FullPool 2000 (by decide)

-- C1: event order of the terminal teardown versus later allocations.

/-- C1 amended: starting a dispatch-thread trace with the terminal
physical-disconnect indication of the connection in slot `i` (which carries
private capability data and a bound cleanup hook), the trace places the
disconnected notification at position 1 and the cleanup hook at position 2 -
notification first, then cleanup - and every allocation that returns slot
`i` appears strictly after both. -/
theorem c1_no_reuse_before_teardown (s : PoolState) (plci reason : Nat)
    (i : Nat) (ops : List PoolOp)
    (hfind : capi_find_plci plci s.pool = some i)
    (hpriv : (s.pool.getD i zeroConn).priv = true)
    (hclean : (s.pool.getD i zeroConn).clean.isSome = true) :
    ((execOps s (PoolOp.disconnectInd plci reason :: ops)).2.get? 1 =
        some (Event.notifyDisconnect i)) ∧
    ((execOps s (PoolOp.disconnectInd plci reason :: ops)).2.get? 2 =
        some (Event.cleanupHook i)) ∧
    (∀ m newId,
        (execOps s (PoolOp.disconnectInd plci reason :: ops)).2.get? m =
          some (Event.allocReturn i newId) → 2 < m) := by
  have hhandler : execOp s (PoolOp.disconnectInd plci reason) =
      (⟨s.pool.set i
          (capi_set_free i
            { s.pool.getD i zeroConn with
              reason := reason, state := CState.idle, ncci := 0, plci := 0 }).2,
        s.nextId⟩,
       [Event.wire (WireMsg.disconnectResp plci), Event.notifyDisconnect i,
        Event.cleanupHook i]) := by
    simp only [execOp, capi_disconnect_ind, hfind]
    simp only [List.getD_eq_getElem?_getD] at hpriv hclean
    simp [capi_set_free, hpriv, hclean]
  have htr : (execOps s (PoolOp.disconnectInd plci reason :: ops)).2 =
      [Event.wire (WireMsg.disconnectResp plci), Event.notifyDisconnect i,
       Event.cleanupHook i] ++
      (execOps (execOp s (PoolOp.disconnectInd plci reason)).1 ops).2 := by
    simp only [execOps]
    rw [hhandler]
  refine ⟨?_, ?_, ?_⟩
  · rw [htr]; rfl
  · rw [htr]; rfl
  · intro m newId hm
    rw [htr] at hm
    match m with
    | 0 => simp at hm
    | 1 => simp at hm
    | 2 => simp at hm
    | n + 3 => omega

-- capi_hangup (capi.c lines 266-337) and capi_pickup (lines 499-526).

/-- Results of the synchronous wire requests hangup can issue; the
transport is external, so they are oracle inputs. -/
structure WireOracle where
  disconnectReqInfo : Nat
  disconnectB3ReqInfo : Nat
  connectRespInfo : Nat
deriving DecidableEq

/-- capi_hangup (capi.c lines 266-337): switch on the connection state.
The C function returns void - there is no error return to the caller; all
failure information surfaces as a status notification event.  The NULL
connection guard is a pointer concern outside this value-level model. -/
def capi_hangup (o : WireOracle) (c : CapiConnection) :
    CapiConnection × List Event :=
  match c.state with
  | CState.connectWait | CState.connectActive | CState.disconnectB3Req
  | CState.disconnectB3Wait | CState.disconnectActive | CState.incomingWait =>
    let info := o.disconnectReqInfo
    if info ≠ 0 then
      ({ c with state := CState.idle },
       [Event.wire (WireMsg.disconnectReq c.plci), Event.statusSig info])
    else
      ({ c with state := CState.disconnectActive },
       [Event.wire (WireMsg.disconnectReq c.plci)])
  | CState.connectB3Wait | CState.connected =>
    let info := o.disconnectB3ReqInfo
    if info ≠ 0 then
      let info2 := o.disconnectReqInfo
      if info2 ≠ 0 then
        ({ c with state := CState.idle },
         [Event.wire (WireMsg.disconnectB3Req c.ncci),
          Event.wire (WireMsg.disconnectReq c.plci), Event.statusSig info2])
      else
        ({ c with state := CState.disconnectActive },
         [Event.wire (WireMsg.disconnectB3Req c.ncci),
          Event.wire (WireMsg.disconnectReq c.plci)])
    else
      ({ c with state := CState.disconnectB3Req },
       [Event.wire (WireMsg.disconnectB3Req c.ncci)])
  | CState.ringing =>
    let info := o.connectRespInfo
    if info ≠ 0 then
      ({ c with state := CState.idle },
       [Event.wire (WireMsg.connectResp c.plci 3), Event.statusSig info])
    else
      ({ c with state := CState.idle },
       [Event.wire (WireMsg.connectResp c.plci 3)])
  | CState.idle => (c, [])

/-- Modelled from the amended claim text of C3, not from the code: states
awaiting or tearing down the physical channel issue DISCONNECT_REQ and move
to DISCONNECT_ACTIVE, or to IDLE plus a status when the request itself
fails; states with a bearer channel try DISCONNECT_B3_REQ first and fall
back to DISCONNECT_REQ, ending DISCONNECT_B3_REQ, DISCONNECT_ACTIVE, or
IDLE plus a status when the fallback also fails; RINGING rejects via
CONNECT_RESP and returns to IDLE directly (status on failure); IDLE is a
no-op.  The model's ten states are exactly the machine's states, so the
"any other state is logged and ignored" branch of the C switch is
unreachable, and no state has an undefined outcome; nothing is ever
reported to the caller as a failure. -/
def hangupExpected (o : WireOracle) (c : CapiConnection) :
    CapiConnection × List Event :=
  if c.state = CState.connectWait ∨ c.state = CState.connectActive ∨
     c.state = CState.disconnectB3Req ∨ c.state = CState.disconnectB3Wait ∨
     c.state = CState.disconnectActive ∨ c.state = CState.incomingWait then
    if o.disconnectReqInfo = 0 then
      ({ c with state := CState.disconnectActive },
       [Event.wire (WireMsg.disconnectReq c.plci)])
    else
      ({ c with state := CState.idle },
       [Event.wire (WireMsg.disconnectReq c.plci),
        Event.statusSig o.disconnectReqInfo])
  else if c.state = CState.connectB3Wait ∨ c.state = CState.connected then
    if o.disconnectB3ReqInfo = 0 then
      ({ c with state := CState.disconnectB3Req },
       [Event.wire (WireMsg.disconnectB3Req c.ncci)])
    else if o.disconnectReqInfo = 0 then
      ({ c with state := CState.disconnectActive },
       [Event.wire (WireMsg.disconnectB3Req c.ncci),
        Event.wire (WireMsg.disconnectReq c.plci)])
    else
      ({ c with state := CState.idle },
       [Event.wire (WireMsg.disconnectB3Req c.ncci),
        Event.wire (WireMsg.disconnectReq c.plci),
        Event.statusSig o.disconnectReqInfo])
  else if c.state = CState.ringing then
    if o.connectRespInfo = 0 then
      ({ c with state := CState.idle },
       [Event.wire (WireMsg.connectResp c.plci 3)])
    else
      ({ c with state := CState.idle },
       [Event.wire (WireMsg.connectResp c.plci 3),
        Event.statusSig o.connectRespInfo])
  else
    (c, [])

/-- C3 amended: hangup has the defined outcome described by
`hangupExpected` in every state and for every transport outcome, and its
(void) result carries no failure to the caller; the connection moves to a
DISCONNECT_* state only when the issued disconnect request succeeds, and is
forced to IDLE with a status notification when the request (or the bearer
fallback) itself fails. -/
theorem c3_hangup_total (o : WireOracle) (c : CapiConnection) :
    capi_hangup o c = hangupExpected o c := by
  cases hs : c.state <;>
    simp [capi_hangup, hangupExpected, hs]

/-- C3 counterexample to the claim as stated: it is not the case that every
hangup from an active/negotiating state lands in a DISCONNECT_* state -
when the DISCONNECT_REQ itself fails (non-zero info), the connection is
forced to IDLE instead. -/
theorem c3_counterexample :
    ¬ (∀ (o : WireOracle) (c : CapiConnection),
        c.state = CState.connectWait →
        ((capi_hangup o c).1.state = CState.disconnectActive ∨
         (capi_hangup o c).1.state = CState.disconnectB3Req ∨
         (capi_hangup o c).1.state = CState.disconnectB3Wait)) := by
  intro h
  have h2 := h ⟨1, 0, 0⟩ { zeroConn with state := CState.connectWait, plci := 5 }
    rfl
  revert h2
  decide

/-- capi_pickup (capi.c lines 499-526): rebinds the connection type first
(ignoring the result of capi_connection_set_type, exactly as the C does),
then fails with -1 unless the state is RINGING; otherwise sends the
accepting CONNECT_RESP and moves to INCOMING_WAIT.  The Int component is
the C return value; pickup sends no wire message on the failure path. -/
def capi_pickup (c : CapiConnection) (ty : SessionType) :
    Int × CapiConnection × List Event :=
  let c1 := (capi_connection_set_type c ty).2
  if c1.state ≠ CState.ringing then
    (-1, c1, [])
  else
    (0, { c1 with state := CState.incomingWait },
     [Event.wire (WireMsg.connectResp c1.plci 0)])

/-- C10: pickup on a connection that is not RINGING returns -1 and sends
nothing on the wire, but has already rebound the call kind and the whole
capability record (type, data-initializer, payload handler, cleanup hook,
early-bearer flag) to those of the requested kind; every other field of the
connection is unchanged (the record-update equality says exactly that). -/
theorem c10_pickup_side_effect (c : CapiConnection) (ty : SessionType)
    (hstate : c.state ≠ CState.ringing)
    (hty : ty = SessionType.phone ∨ ty = SessionType.fax) :
    capi_pickup c ty =
      (-1,
       { c with
         type := ty,
         initData := some (if ty = SessionType.phone then Hook.phoneInitData
                           else Hook.faxInitData),
         dataHandler := some (if ty = SessionType.phone then Hook.phoneData
                              else Hook.faxData),
         clean := if ty = SessionType.phone then Option.none
                  else some Hook.faxClean,
         earlyB3 := if ty = SessionType.phone then 1 else 0 },
       []) := by
  rcases hty with h | h <;> subst h <;>
    simp [capi_pickup, capi_connection_set_type, hstate]

/-- C10 witness: concrete pickup of a phone call on an IDLE connection. -/
theorem c10_pickup_side_effect_witness :
    capi_pickup { zeroConn with plci := 3 } SessionType.phone =
      (-1,
       { zeroConn with
         plci := 3,
         type := SessionType.phone,
         initData := some Hook.phoneInitData,
         dataHandler := some Hook.phoneData,
         clean := Option.none,
         earlyB3 := 1 },
       []) := by
  have h := c10_pickup_side_effect { zeroConn with plci := 3 }
    SessionType.phone (by decide) (Or.inl rfl)
  simpa using h

/-- A one-slot table holding a fax connection (private data attached, fax
cleanup hook bound) with plci 5, for concrete runs of the teardown trace. -/
def c1Pool : PoolState :=
  ⟨[{ zeroConn with
      plci := 5, state := CState.connected, type := SessionType.fax,
      initData := some Hook.faxInitData, dataHandler := some Hook.faxData,
      clean := some Hook.faxClean, priv := true }], 1100⟩

/-- C1 witness: the amended order theorem at a concrete table and a
following allocation. -/
theorem c1_no_reuse_before_teardown_witness :
    ((execOps c1Pool (PoolOp.disconnectInd 5 0 :: [PoolOp.alloc])).2.get? 1 =
        some (Event.notifyDisconnect 0)) ∧
    ((execOps c1Pool (PoolOp.disconnectInd 5 0 :: [PoolOp.alloc])).2.get? 2 =
        some (Event.cleanupHook 0)) ∧
    (∀ m newId,
        (execOps c1Pool (PoolOp.disconnectInd 5 0 :: [PoolOp.alloc])).2.get? m =
          some (Event.allocReturn 0 newId) → 2 < m) :=
  c1_no_reuse_before_teardown c1Pool 5 0 0 [PoolOp.alloc]
    (by decide) (by decide) (by decide)

-- Addressing: the information elements built by capi_call (capi.c lines
-- 394-417) and the inbound extraction rule capi_get_source_no (533-569).

/-- Bytes of the fixed internal calling-number identity substituted when
the target begins with a star or hash. -/
def internCallingNo : List Nat := [42, 42, 57, 56, 49]

/-- The 70-byte calling-party buffer built by capi_call: length octet
2 + strlen (stored in an unsigned char, hence taken mod 256), a zero
octet, the presentation octet (0xA0 = 160 when anonymous, else 0x80 =
128), then strncpy of the source number (internal calls substitute the
fixed identity) into the next 66 bytes with zero padding.  The C code
never writes the last byte of the array, so it keeps the uninitialized
stack content, the parameter `junk`. -/
def encodeCallingParty (srcNo : List Nat) (callAnonymous intern : Bool)
    (junk : Nat) : List Nat :=
  let pres := if callAnonymous then 160 else 128
  if intern then
    [7, 0, pres] ++
      (internCallingNo.take 66 ++
        List.replicate (66 - internCallingNo.length) 0) ++ [junk]
  else
    [(2 + srcNo.length) % 256, 0, pres] ++
      (srcNo.take 66 ++ List.replicate (66 - srcNo.length) 0) ++ [junk]

/-- The 70-byte called-party buffer built by capi_call: length octet
1 + strlen (mod 256), the octet 0x80, then strncpy of the target into the
next 67 bytes with zero padding; the last byte again keeps `junk`. -/
def encodeCalledParty (trgNo : List Nat) (junk : Nat) : List Nat :=
  [(1 + trgNo.length) % 256, 128] ++
    (trgNo.take 67 ++ List.replicate (67 - trgNo.length) 0) ++ [junk]

/-- Bytes of the C string literal for an undecodable number. -/
def strUnknown : List Nat := [117, 110, 107, 110, 111, 119, 110]

/-- Bytes of the C string literal for an empty decoded number. -/
def strAnonymous : List Nat := [97, 110, 111, 110, 121, 109, 111, 117, 115]

/-- capi_get_source_no (capi.c lines 533-569), on the branch where the
calling-party-number element is present (the INFO-element fallback differs
only in where the length octet is read from).  Decoded length at most 1
yields "unknown"; with the presentation bit (0x80) set in octet 2 the
number starts at octet 3 and is length-2 bytes long, otherwise at octet 2
with length-1 bytes; the copy lands in a zeroed 256-byte buffer whose
terminators were pre-cleared, so the resulting C string is the copied
bytes up to the first zero; an empty result yields "anonymous". -/
def capi_get_source_no (buf : List Nat) : List Nat :=
  let len := buf.headD 0
  if len ≤ 1 then strUnknown
  else
    let copied :=
      if buf.getD 2 0 &&& 128 ≠ 0 then (buf.drop 3).take (len - 2)
      else (buf.drop 2).take (len - 1)
    let number := copied.takeWhile (fun b => b != 0)
    if number.length = 0 then strAnonymous else number

/-- Result of capi_call: the returned connection (slot index, or none for
the C NULL return), the updated table and id counter, and the events. -/
structure CallResult where
  allocated : Option Nat
  pool : List CapiConnection
  nextId : Nat
  events : List Event
deriving DecidableEq

/-- capi_call (capi.c lines 349-491).  Checks session and number validity,
allocates a slot, binds the type (the -1 result of
capi_connection_set_type for an unknown kind is ignored, exactly as the C
does), builds the address elements, issues CONNECT_REQ (result
`connectReqErr` from the transport oracle), frees the slot and returns
NULL on a synchronous error, otherwise stores target/source and returns
the connection.  The bc/llc/hlc protocol blocks are not observed by any
claim and are omitted from the wire event. -/
def capi_call (sessionPresent : Bool) (pool : List CapiConnection)
    (fresh controller : Nat) (srcNo trgNo : List Nat)
    (callAnonymous : Bool) (ty : SessionType) (cip connectReqErr junk : Nat) :
    CallResult :=
  let intern := (trgNo.headD 0 == 42) || (trgNo.headD 0 == 35)
  if ¬ sessionPresent then ⟨Option.none, pool, fresh, []⟩
  else if srcNo.length < 1 ∨ trgNo.length < 1 then
    ⟨Option.none, pool, fresh, []⟩
  else
    match capi_get_free_connection true pool fresh with
    | Option.none => ⟨Option.none, pool, fresh, []⟩
    | some (pool1, i, nid) =>
      let c1 := (capi_connection_set_type (pool1.getD i zeroConn) ty).2
      let ev := Event.wire (WireMsg.connectReq controller cip
        (encodeCalledParty trgNo junk)
        (encodeCallingParty srcNo callAnonymous intern junk))
      if connectReqErr ≠ 0 then
        let fr := capi_set_free i c1
        ⟨Option.none, pool1.set i fr.2, nid, [ev] ++ fr.1⟩
      else
        ⟨some i, pool1.set i { c1 with target := trgNo, source := srcNo },
         nid, [ev]⟩

/-- Result of a confirmation handler: updated table and events. -/
structure ConfResult where
  pool : List CapiConnection
  events : List Event
deriving DecidableEq

/-- The CAPI_CONNECT case of capi_confirmation (capi.c lines 1492-1517):
find the newly requested connection (plci still 0, type bound); a non-zero
info means connection error - state IDLE, status notification, slot freed;
info zero stores the confirmed plci and moves to CONNECT_WAIT. -/
def capi_confirmation_connect (pool : List CapiConnection)
    (plci info : Nat) : ConfResult :=
  match capi_find_new pool with
  | Option.none => ⟨pool, []⟩
  | some i =>
    let c := pool.getD i zeroConn
    if info ≠ 0 then
      let fr := capi_set_free i { c with state := CState.idle }
      ⟨pool.set i fr.2, [Event.statusSig info] ++ fr.1⟩
    else
      ⟨pool.set i { c with plci := plci, state := CState.connectWait }, []⟩

/-- C1 counterexample to the claimed order: in the concrete teardown trace a
later allocation does return the freed slot (at position 3), yet no pair of
positions before it has the cleanup hook at the earlier position and the
disconnected notification at the later one - the code posts the notification
first and runs the cleanup hook second, not the order the claim states. -/
theorem c1_order_counterexample :
    ((execOps c1Pool [PoolOp.disconnectInd 5 0, PoolOp.alloc]).2.get? 3 =
        some (Event.allocReturn 0 1100)) ∧
    (¬ ∃ j k : Fin 3, j.val < k.val ∧
        (execOps c1Pool [PoolOp.disconnectInd 5 0, PoolOp.alloc]).2.get? j.val =
          some (Event.cleanupHook 0) ∧
        (execOps c1Pool [PoolOp.disconnectInd 5 0, PoolOp.alloc]).2.get? k.val =
          some (Event.notifyDisconnect 0)) := by
  decide

-- Helper lemmas about the allocator's chosen slot and list indexing.

lemma getD_set_self {α : Type} (l : List α) (i : Nat) (x d : α)
    (h : i < l.length) : (l.set i x).getD i d = x := by
  induction l generalizing i with
  | nil => simp at h
  | cons a t ih =>
    cases i with
    | zero => rfl
    | succ n =>
      simp only [List.length_cons] at h
      exact ih n (by omega)

/-- The slot returned by the free-slot scan: a valid index whose record got
the fresh id and STATE_IDLE while keeping plci = 0 and ncci = 0. -/
lemma capi_scan_free_slot (fresh : Nat) :
    ∀ (pool pool2 : List CapiConnection) (i : Nat),
      capi_scan_free fresh pool = some (pool2, i) →
      i < pool2.length ∧
      (pool2.getD i zeroConn).state = CState.idle ∧
      (pool2.getD i zeroConn).plci = 0 ∧
      (pool2.getD i zeroConn).ncci = 0 ∧
      (pool2.getD i zeroConn).id = fresh := by
  intro pool
  induction pool with
  | nil => intro pool2 i h; simp [capi_scan_free] at h
  | cons c rest ih =>
    intro pool2 i h
    simp only [capi_scan_free] at h
    by_cases hfree : c.plci = 0 ∧ c.ncci = 0
    · rw [if_pos hfree] at h
      cases h
      exact ⟨by simp, rfl, hfree.1, hfree.2, rfl⟩
    · rw [if_neg hfree] at h
      cases hscan : capi_scan_free fresh rest with
      | none => rw [hscan] at h; simp [Option.map] at h
      | some pr =>
        rw [hscan] at h
        simp only [Option.map, Option.some.injEq] at h
        cases h
        obtain ⟨h1, h2, h3, h4, h5⟩ := ih pr.1 pr.2 hscan
        exact ⟨by simpa using Nat.succ_lt_succ h1, h2, h3, h4, h5⟩

/-- capi_connection_set_type only touches the type and capability fields. -/
lemma set_type_preserves (c : CapiConnection) (ty : SessionType) :
    ((capi_connection_set_type c ty).2.state = c.state) ∧
    ((capi_connection_set_type c ty).2.plci = c.plci) ∧
    ((capi_connection_set_type c ty).2.ncci = c.ncci) := by
  cases ty <;> exact ⟨rfl, rfl, rfl⟩

/-- An event recording a CONNECT_REQ reaching the transport. -/
def isConnectReqEvent : Event → Bool
  | Event.wire (WireMsg.connectReq _ _ _ _) => true
  | _ => false

/-- C4: on a concrete call-setup request whose kind is unknown (neither
phone nor fax), with a registered session, valid numbers, a free slot and
an accepting transport, capi_call ignores the -1 from
capi_connection_set_type: a CONNECT_REQ event does reach the transport and
the call returns an allocated connection - the rejection the claim
describes does not happen. -/
theorem c4_unknown_kind_reaches_wire :
    ((capi_call true [zeroConn, zeroConn] 1200 1 [49, 50] [51, 52] false
        SessionType.none 1 0 0).events.any isConnectReqEvent = true) ∧
    ((capi_call true [zeroConn, zeroConn] 1200 1 [49, 50] [51, 52] false
        SessionType.none 1 0 0).allocated = some 0) := by
  decide

/-- C5: for an outbound call with valid numbers, a registered session and a
free slot (the scan finds slot i): (a) a failing synchronous CONNECT_REQ
releases the slot (it is zeroed) and the caller gets no connection; (b) a
successful CONNECT_REQ returns the connection with the state still IDLE and
no PLCI; (c) the asynchronous CAPI_CONNECT confirmation with info = 0
(finding that newly requested connection) stores the confirmed PLCI and
advances the state to CONNECT_WAIT; (d) a non-zero confirmation info
instead raises a status notification and frees the slot (zeroed, hence
IDLE). -/
theorem c5_outbound_call
    (pool pool1 : List CapiConnection)
    (fresh i controller cip plci2 junk : Nat)
    (srcNo trgNo : List Nat) (callAnonymous : Bool) (ty : SessionType)
    (hsrc : srcNo ≠ []) (htrg : trgNo ≠ [])
    (hscan : capi_scan_free fresh pool = some (pool1, i)) :
    (∀ err, err ≠ 0 →
      (capi_call true pool fresh controller srcNo trgNo callAnonymous ty
          cip err junk).allocated = Option.none ∧
      (capi_call true pool fresh controller srcNo trgNo callAnonymous ty
          cip err junk).pool.getD i zeroConn = zeroConn) ∧
    ((capi_call true pool fresh controller srcNo trgNo callAnonymous ty
        cip 0 junk).allocated = some i ∧
     ((capi_call true pool fresh controller srcNo trgNo callAnonymous ty
        cip 0 junk).pool.getD i zeroConn).state = CState.idle ∧
     ((capi_call true pool fresh controller srcNo trgNo callAnonymous ty
        cip 0 junk).pool.getD i zeroConn).plci = 0) ∧
    (capi_find_new (capi_call true pool fresh controller srcNo trgNo
        callAnonymous ty cip 0 junk).pool = some i →
      (((capi_confirmation_connect (capi_call true pool fresh controller
          srcNo trgNo callAnonymous ty cip 0 junk).pool plci2 0).pool.getD i
            zeroConn).state = CState.connectWait ∧
       ((capi_confirmation_connect (capi_call true pool fresh controller
          srcNo trgNo callAnonymous ty cip 0 junk).pool plci2 0).pool.getD i
            zeroConn).plci = plci2)) ∧
    (∀ info, info ≠ 0 →
      capi_find_new (capi_call true pool fresh controller srcNo trgNo
        callAnonymous ty cip 0 junk).pool = some i →
      ((capi_confirmation_connect (capi_call true pool fresh controller
          srcNo trgNo callAnonymous ty cip 0 junk).pool plci2 info).pool.getD
            i zeroConn = zeroConn ∧
       Event.statusSig info ∈ (capi_confirmation_connect (capi_call true
          pool fresh controller srcNo trgNo callAnonymous ty cip 0
          junk).pool plci2 info).events)) := by
  obtain ⟨hi, hstate, hplci, hncci, hid⟩ :=
    capi_scan_free_slot fresh pool pool1 i hscan
  have hnum : ¬ (srcNo.length < 1 ∨ trgNo.length < 1) := by
    have h1 : 0 < srcNo.length := List.length_pos.mpr hsrc
    have h2 : 0 < trgNo.length := List.length_pos.mpr htrg
    omega
  have hget : capi_get_free_connection true pool fresh =
      some (pool1, i, fresh + 1) := by
    simp [capi_get_free_connection, hscan]
  have hfail : ∀ err, err ≠ 0 →
      capi_call true pool fresh controller srcNo trgNo callAnonymous ty
        cip err junk =
      ⟨Option.none, pool1.set i zeroConn, fresh + 1,
       [Event.wire (WireMsg.connectReq controller cip
          (encodeCalledParty trgNo junk)
          (encodeCallingParty srcNo callAnonymous
            ((trgNo.headD 0 == 42) || (trgNo.headD 0 == 35)) junk))] ++
        (capi_set_free i
          (capi_connection_set_type (pool1.getD i zeroConn) ty).2).1⟩ := by
    intro err herr
    simp only [capi_call, hget, hnum]
    simp [herr, capi_set_free]
  have hsucc : capi_call true pool fresh controller srcNo trgNo
      callAnonymous ty cip 0 junk =
      ⟨some i,
       pool1.set i
         { (capi_connection_set_type (pool1.getD i zeroConn) ty).2 with
           target := trgNo, source := srcNo },
       fresh + 1,
       [Event.wire (WireMsg.connectReq controller cip
          (encodeCalledParty trgNo junk)
          (encodeCallingParty srcNo callAnonymous
            ((trgNo.headD 0 == 42) || (trgNo.headD 0 == 35)) junk))]⟩ := by
    simp only [capi_call, hget, hnum]
    simp
  have hlen1 : i < pool1.length := hi
  have hslot : (capi_call true pool fresh controller srcNo trgNo
      callAnonymous ty cip 0 junk).pool.getD i zeroConn =
      { (capi_connection_set_type (pool1.getD i zeroConn) ty).2 with
        target := trgNo, source := srcNo } := by
    rw [hsucc]
    exact getD_set_self pool1 i _ zeroConn hlen1
  have hslen : (capi_call true pool fresh controller srcNo trgNo
      callAnonymous ty cip 0 junk).pool.length = pool1.length := by
    rw [hsucc]
    simp
  refine ⟨?_, ⟨?_, ?_, ?_⟩, ?_, ?_⟩
  · intro err herr
    rw [hfail err herr]
    exact ⟨rfl, getD_set_self pool1 i zeroConn zeroConn hlen1⟩
  · rw [hsucc]
  · rw [hslot]
    exact (set_type_preserves (pool1.getD i zeroConn) ty).1.trans hstate
  · rw [hslot]
    exact (set_type_preserves (pool1.getD i zeroConn) ty).2.1.trans hplci
  · intro hfound
    simp only [capi_confirmation_connect, hfound]
    rw [if_neg (by simp)]
    rw [getD_set_self _ i _ zeroConn (by rw [hslen]; exact hlen1)]
    exact ⟨rfl, rfl⟩
  · intro info hinfo hfound
    simp only [capi_confirmation_connect, hfound]
    rw [if_pos hinfo]
    constructor
    · exact getD_set_self _ i _ zeroConn (by rw [hslen]; exact hlen1)
    · simp

/-- C5 witness: concrete outbound phone call from number 12345 to 67 with
oracle outcomes 7 (synchronous failure), 0 (acceptance), and confirmation
infos 0 and 9 at confirmed plci 42. -/
theorem c5_outbound_call_witness :
    ((capi_call true [zeroConn] 1200 1 [49, 50, 51, 52, 53] [54, 55] false
        SessionType.phone 1 7 0).allocated = Option.none ∧
     (capi_call true [zeroConn] 1200 1 [49, 50, 51, 52, 53] [54, 55] false
        SessionType.phone 1 7 0).pool.getD 0 zeroConn = zeroConn) ∧
    ((capi_call true [zeroConn] 1200 1 [49, 50, 51, 52, 53] [54, 55] false
        SessionType.phone 1 0 0).allocated = some 0 ∧
     ((capi_call true [zeroConn] 1200 1 [49, 50, 51, 52, 53] [54, 55] false
        SessionType.phone 1 0 0).pool.getD 0 zeroConn).state = CState.idle ∧
     ((capi_call true [zeroConn] 1200 1 [49, 50, 51, 52, 53] [54, 55] false
        SessionType.phone 1 0 0).pool.getD 0 zeroConn).plci = 0) ∧
    (((capi_confirmation_connect (capi_call true [zeroConn] 1200 1
        [49, 50, 51, 52, 53] [54, 55] false SessionType.phone 1 0 0).pool
        42 0).pool.getD 0 zeroConn).state = CState.connectWait ∧
     ((capi_confirmation_connect (capi_call true [zeroConn] 1200 1
        [49, 50, 51, 52, 53] [54, 55] false SessionType.phone 1 0 0).pool
        42 0).pool.getD 0 zeroConn).plci = 42) ∧
    ((capi_confirmation_connect (capi_call true [zeroConn] 1200 1
        [49, 50, 51, 52, 53] [54, 55] false SessionType.phone 1 0 0).pool
        42 9).pool.getD 0 zeroConn = zeroConn ∧
     Event.statusSig 9 ∈ (capi_confirmation_connect (capi_call true
        [zeroConn] 1200 1 [49, 50, 51, 52, 53] [54, 55] false
        SessionType.phone 1 0 0).pool 42 9).events) := by
  have h := c5_outbound_call [zeroConn] [{ zeroConn with id := 1200 }]
    1200 0 1 1 42 0 [49, 50, 51, 52, 53] [54, 55] false SessionType.phone
    (by decide) (by decide) (by decide)
  exact ⟨h.1 7 (by decide), h.2.1, h.2.2.1 (by decide),
    h.2.2.2 9 (by decide) (by decide)⟩

/-- C6 amended: encoding a non-empty, non-internal, non-anonymous,
NUL-free calling number of at most 66 bytes (the capacity the encoder's
strncpy leaves for it) and decoding the element with the inbound
source-number extraction rule recovers the number exactly, whatever the
uninitialized trailing byte holds. -/
theorem c6_encode_decode_roundtrip (srcNo : List Nat) (junk : Nat)
    (hne : srcNo ≠ []) (hlen : srcNo.length ≤ 66)
    (hbytes : ∀ b ∈ srcNo, b ≠ 0) :
    capi_get_source_no (encodeCallingParty srcNo false false junk) =
      srcNo := by
  have hpos : 0 < srcNo.length := List.length_pos.mpr hne
  have hmod : (2 + srcNo.length) % 256 = 2 + srcNo.length :=
    Nat.mod_eq_of_lt (by omega)
  have htake : srcNo.take 66 = srcNo := List.take_of_length_le hlen
  have henc : encodeCallingParty srcNo false false junk =
      (2 + srcNo.length) :: 0 :: 128 ::
        (srcNo ++ (List.replicate (66 - srcNo.length) 0 ++ [junk])) := by
    simp only [encodeCallingParty, Bool.false_eq_true, if_false, htake, hmod,
      List.cons_append, List.nil_append, List.append_assoc]
  rw [henc]
  simp only [capi_get_source_no, List.headD_cons]
  rw [if_neg (by omega)]
  have hg : ((2 + srcNo.length) :: 0 :: 128 ::
      (srcNo ++ (List.replicate (66 - srcNo.length) 0 ++ [junk]))).getD 2 0 =
      128 := rfl
  have hd : ((2 + srcNo.length) :: 0 :: 128 ::
      (srcNo ++ (List.replicate (66 - srcNo.length) 0 ++ [junk]))).drop 3 =
      srcNo ++ (List.replicate (66 - srcNo.length) 0 ++ [junk]) := rfl
  rw [hg, hd]
  rw [if_pos (show (128 : Nat) &&& 128 ≠ 0 by decide)]
  have hsub : 2 + srcNo.length - 2 = srcNo.length := by omega
  rw [hsub, List.take_append_of_le_length (Nat.le_refl srcNo.length),
    List.take_length]
  rw [List.takeWhile_eq_self_iff.mpr (by
    intro x hx
    simpa using hbytes x hx)]
  rw [if_neg (by omega)]

/-- C6 witness: the roundtrip at the concrete number 12345. -/
theorem c6_encode_decode_roundtrip_witness :
    capi_get_source_no
        (encodeCallingParty [49, 50, 51, 52, 53] false false 0) =
      [49, 50, 51, 52, 53] :=
  c6_encode_decode_roundtrip [49, 50, 51, 52, 53] 0 (by decide) (by decide)
    (by decide)

/-- C6 counterexample to the claim over all non-empty numbers: a 67-digit
number is truncated by the encoder's 66-byte strncpy, so the decoder (here
reading a zero-initialized trailing byte) returns only 66 digits, not the
original number. -/
theorem c6_truncation_counterexample :
    capi_get_source_no
        (encodeCallingParty (List.replicate 67 49) false false 0) ≠
      List.replicate 67 49 := by
  decide

-- The CAPI_ALERT confirmation (capi.c lines 1453-1470) and the
-- CAPI_CONNECT indication (lines 862-899).

/-- Marker for a NULL-pointer dereference the C code would perform. -/
inductive DerefError
  | nullDeref
deriving DecidableEq

deriving instance DecidableEq for Except

/-- The CAPI_ALERT case of capi_confirmation (capi.c lines 1453-1470): find
the connection by plci; a non-zero info other than 3 only forces the state
to IDLE (guarded by a NULL check, and with no status notification);
otherwise connection_ring runs, which dereferences the connection without a
NULL check and raises the ring/incoming notification. -/
def capi_confirmation_alert (pool : List CapiConnection)
    (plci info : Nat) : Except DerefError ConfResult :=
  match capi_find_plci plci pool with
  | some i =>
    if info ≠ 0 ∧ info ≠ 3 then
      Except.ok ⟨pool.set i { pool.getD i zeroConn with state := CState.idle },
        []⟩
    else
      Except.ok ⟨pool, [Event.ring i]⟩
  | Option.none =>
    if info ≠ 0 ∧ info ≠ 3 then
      Except.ok ⟨pool, []⟩
    else
      Except.error DerefError.nullDeref

/-- C7 amended: on the alert confirmation for a connection found by plci, a
non-zero, non-ignorable (not 3) info value forces the connection to IDLE
but raises no notification at all (the C code has no connection_status call
on this path); a zero or ignorable info instead leaves the table unchanged
(in particular the state is not forced to IDLE) and triggers the
ring-signaling path. -/
theorem c7_alert_confirmation (pool : List CapiConnection)
    (plci info i : Nat) (hfind : capi_find_plci plci pool = some i) :
    (info ≠ 0 → info ≠ 3 →
      capi_confirmation_alert pool plci info =
        Except.ok ⟨pool.set i
          { pool.getD i zeroConn with state := CState.idle }, []⟩) ∧
    (info = 0 ∨ info = 3 →
      capi_confirmation_alert pool plci info =
        Except.ok ⟨pool, [Event.ring i]⟩) := by
  constructor
  · intro h0 h3
    simp only [capi_confirmation_alert, hfind]
    rw [if_pos ⟨h0, h3⟩]
  · intro h03
    simp only [capi_confirmation_alert, hfind]
    rw [if_neg (by rcases h03 with h | h <;> simp [h])]

/-- C7 witness: a concrete one-slot table with plci 7 in CONNECT_WAIT,
failing alert confirmation info 2 and successful info 0. -/
theorem c7_alert_confirmation_witness :
    ((2 : Nat) ≠ 0 → (2 : Nat) ≠ 3 →
      capi_confirmation_alert
          [{ zeroConn with plci := 7, state := CState.connectWait }] 7 2 =
        Except.ok ⟨[{ zeroConn with plci := 7, state := CState.connectWait
          }].set 0 { [{ zeroConn with plci := 7, state := CState.connectWait
          }].getD 0 zeroConn with state := CState.idle }, []⟩) ∧
    ((2 : Nat) = 0 ∨ (2 : Nat) = 3 →
      capi_confirmation_alert
          [{ zeroConn with plci := 7, state := CState.connectWait }] 7 2 =
        Except.ok ⟨[{ zeroConn with plci := 7, state := CState.connectWait }],
          [Event.ring 0]⟩) :=
  c7_alert_confirmation
    [{ zeroConn with plci := 7, state := CState.connectWait }] 7 2 0
    (by decide)

/-- C7 counterexample to the claim as stated: it is not the case that every
non-zero, non-ignorable alert confirmation raises a failure status - on a
concrete table the handler forces IDLE but its event list is empty, and in
particular contains no status notification. -/
theorem c7_no_status_counterexample :
    ¬ (∀ (pool : List CapiConnection) (plci info i : Nat),
        capi_find_plci plci pool = some i → info ≠ 0 → info ≠ 3 →
        ∃ r, capi_confirmation_alert pool plci info = Except.ok r ∧
          (∃ s, Event.statusSig s ∈ r.events)) := by
  intro h
  obtain ⟨r, hr, s, hs⟩ :=
    h [{ zeroConn with plci := 7, state := CState.connectWait }] 7 2 0
      (by decide) (by decide) (by decide)
  rw [show capi_confirmation_alert
      [{ zeroConn with plci := 7, state := CState.connectWait }] 7 2 =
      Except.ok ⟨[{ zeroConn with plci := 7, state := CState.idle }], []⟩
    from by decide] at hr
  cases hr
  simp at hs

/-- Result of an indication handler that can allocate: updated table, id
counter, events. -/
structure IndResult where
  pool : List CapiConnection
  nextId : Nat
  events : List Event
deriving DecidableEq

/-- The accepted call-indicator set of the CAPI_CONNECT indication
(capi.c line 874): cip 16 or 1 (telephony) or 4 or 17 (fax variants). -/
def acceptedCip (cip : Nat) : Bool :=
  cip == 16 || cip == 1 || cip == 4 || cip == 17

/-- The CAPI_CONNECT case of capi_indication (capi.c lines 862-899),
without the ACCEPT_INTERN build-time override.  The source/target numbers
arrive already extracted by capi_get_source_no / capi_get_target_no.  A
rejected indicator answers CONNECT_RESP with ignore = 1.  An accepted call
allocates; the C code dereferences the allocator result with no NULL check
(`connection->type = SESSION_NONE`), which the model surfaces as a
nullDeref error when the allocator returns NULL; otherwise the slot gets
type SESSION_NONE, state RINGING, the plci and the numbers, and ALERT_REQ
is sent. -/
def capi_indication_connect (sessionPresent : Bool)
    (pool : List CapiConnection) (fresh plci cip : Nat)
    (srcNo trgNo : List Nat) : Except DerefError IndResult :=
  if ¬ acceptedCip cip then
    Except.ok ⟨pool, fresh, [Event.wire (WireMsg.connectResp plci 1)]⟩
  else
    match capi_get_free_connection sessionPresent pool fresh with
    | Option.none => Except.error DerefError.nullDeref
    | some (pool1, i, nid) =>
      Except.ok ⟨pool1.set i
        { pool1.getD i zeroConn with
          type := SessionType.none, state := CState.ringing, plci := plci,
          source := srcNo, target := trgNo },
        nid, [Event.wire (WireMsg.alertReq plci)]⟩

/-- C9: an accepted inbound connect indication (indicator in the accepted
set) arriving on an active session whose table has every slot occupied
reaches the allocation-failure branch, and the handler dereferences the
NULL connection pointer instead of rejecting the call. -/
theorem c9_inbound_full_pool_null_deref
    (pool : List CapiConnection) (fresh plci cip : Nat)
    (srcNo trgNo : List Nat)
    (hcip : acceptedCip cip = true)
    (hfull : ∀ c ∈ pool, connFree c = false) :
    capi_indication_connect true pool fresh plci cip srcNo trgNo =
      Except.error DerefError.nullDeref := by
  have hscan := capi_scan_free_eq_none fresh pool hfull
  simp [capi_indication_connect, hcip, capi_get_free_connection, hscan]

/-- C9 witness: a concrete voice call (cip 16) into a fully occupied
one-slot table hits the NULL dereference. -/
theorem c9_inbound_full_pool_null_deref_witness :
    capi_indication_connect true
        [{ zeroConn with plci := 9, state := CState.connected }] 1300 11 16
        [49, 50] [51, 52] =
      Except.error DerefError.nullDeref :=
  c9_inbound_full_pool_null_deref
    [{ zeroConn with plci := 9, state := CState.connected }] 1300 11 16
    [49, 50] [51, 52] (by decide) (by decide)

-- The dispatch loop capi_loop (capi.c lines 1556-1607) and capi_reconnect
-- (lines 1541-1549).

/-- Outcome of one capi_get_cmsg decode, classified as the loop does:
CapiNoError (a message to dispatch), CapiReceiveQueueEmpty (the
desynchronization anomaly; carries the application id that the reconnect's
capi_init will return, since the registration is external), or any other
code (fatal). -/
inductive DecodeResult
  | ok
  | queueEmpty (newApplId : Int)
  | fatal (code : Nat)
deriving DecidableEq

/-- One iteration's input: the cancellation flag observed at the top of the
loop, a timed-out wait, or a pending message with its decode outcome. -/
inductive LoopInput
  | cancelled
  | noMessage
  | message (d : DecodeResult)
deriving DecidableEq

/-- The dispatch loop's view of the shared session: whether the global
session pointer is set, and session->appl_id. -/
structure LoopState where
  sessionPresent : Bool
  applId : Int
deriving DecidableEq

/-- Observable actions of the dispatch loop. -/
inductive LoopEvent
  | dispatched
  | sleptIdle
  | sleptBackoff
  | closedSession
  | registered (newId : Int)
  | exitCancelled
  | exitFatal (code : Nat)
deriving DecidableEq

/-- capi_reconnect (capi.c lines 1541-1549): capi_close, then capi_init,
whose result replaces session->appl_id. -/
def capi_reconnect (s : LoopState) (newId : Int) :
    LoopState × List LoopEvent :=
  ({ s with applId := newId },
   [LoopEvent.closedSession, LoopEvent.registered newId])

/-- capi_loop (capi.c lines 1556-1607) over a list of iteration inputs.
Observing cancellation exits the while loop, after which the C function
clears the global session pointer and returns.  An arrived message decodes
to: CapiNoError - dispatch to the state machine and continue;
CapiReceiveQueueEmpty - sleep one second, capi_reconnect, continue; any
other result - return from the thread function immediately (no
session-clearing, no further iteration).  A timed-out wait sleeps briefly,
longer when no session is registered.  An exhausted input list just stops
observing the still-running loop. -/
def capi_loop : LoopState → List LoopInput → LoopState × List LoopEvent
  | s, [] => (s, [])
  | s, LoopInput.cancelled :: _ =>
    ({ s with sessionPresent := false }, [LoopEvent.exitCancelled])
  | s, LoopInput.noMessage :: rest =>
    let ev := if s.sessionPresent = false ∨ s.applId = -1 then
        LoopEvent.sleptBackoff
      else LoopEvent.sleptIdle
    let r := capi_loop s rest
    (r.1, ev :: r.2)
  | s, LoopInput.message DecodeResult.ok :: rest =>
    let r := capi_loop s rest
    (r.1, LoopEvent.dispatched :: r.2)
  | s, LoopInput.message (DecodeResult.queueEmpty newId) :: rest =>
    let rc := capi_reconnect s newId
    let r := capi_loop rc.1 rest
    (r.1, (LoopEvent.sleptBackoff :: rc.2) ++ r.2)
  | s, LoopInput.message (DecodeResult.fatal code) :: _ =>
    (s, [LoopEvent.exitFatal code])

/-- C8 amended: a queue-empty decode result triggers exactly one reconnect
cycle - a backoff sleep, then close followed by re-register, the new
registration id replacing session->appl_id - and the loop resumes on the
remaining inputs; any other non-success decode result terminates the loop
immediately; the cancellation exit clears the shared session reference,
while the fatal-decode exit returns with the session state untouched. -/
theorem c8_dispatch_loop (s : LoopState) (n : Int) (code : Nat)
    (rest : List LoopInput) :
    (capi_loop s (LoopInput.message (DecodeResult.queueEmpty n) :: rest) =
      ((capi_loop { s with applId := n } rest).1,
       LoopEvent.sleptBackoff :: LoopEvent.closedSession ::
         LoopEvent.registered n :: (capi_loop { s with applId := n } rest).2)) ∧
    (capi_loop s (LoopInput.message (DecodeResult.fatal code) :: rest) =
      (s, [LoopEvent.exitFatal code])) ∧
    (capi_loop s (LoopInput.cancelled :: rest) =
      ({ s with sessionPresent := false }, [LoopEvent.exitCancelled])) := by
  refine ⟨?_, rfl, rfl⟩
  simp [capi_loop, capi_reconnect]

/-- C8 counterexample to the claim as stated: on the fatal-decode exit path
the loop terminates (event exitFatal) but the shared session reference is
still set - the C `return NULL` in the default branch skips the
`session = NULL` that only the cancellation exit reaches. -/
theorem c8_fatal_exit_counterexample :
    ((capi_loop ⟨true, 5⟩
        [LoopInput.message (DecodeResult.fatal 2)]).1.sessionPresent =
      true) ∧
    ((capi_loop ⟨true, 5⟩ [LoopInput.message (DecodeResult.fatal 2)]).2 =
      [LoopEvent.exitFatal 2]) := by
  decide
